import Mathlib

/-!
Verification of the `Puppet` class of `matrix-puppet-bridge` (src/puppet.js),
as a shallow embedding in Lean 4.

JavaScript objects whose keys matter for iteration or lookup are embedded as
association lists `List (String × α)` in key-insertion order; property
assignment is update-in-place-or-append, property lookup is first match,
`Object.keys` is the list of first components.  `undefined`/`null` fields are
`Option`.  Asynchronous functions that can reject are `Except`.  Interactive
prompts and the network (homeserver discovery, login) are an explicit
environment record, so that the resolution flow is a pure function of the
config and that environment.
-/

namespace Puppet

/-- JavaScript line terminators: `.` in a JS regular expression (without the
`s` flag) matches any character except these four. -/
def isLineTerminator (c : Char) : Bool :=
  c = Char.ofNat 10 || c = Char.ofNat 13 || c = Char.ofNat 0x2028 || c = Char.ofNat 0x2029

/-- Result of `Puppet.parseMxid`. -/
structure Mxid where
  localpart : String
  domain : String
deriving Repr, DecidableEq

/-- Split a character list at the first `':'`: the characters before it and
the characters after it. -/
def splitAtFirstColon : List Char → Option (List Char × List Char)
  | [] => none
  | c :: rest =>
    if c = ':' then some ([], rest)
    else
      match splitAtFirstColon rest with
      | some (l, r) => some (c :: l, r)
      | none => none

/-- The function `Puppet.parseMxid(userId)`: runs `/^(.*?):(.*)$/.exec(userId)`.  The lazy
first group puts the first colon between the two groups; since `.` matches no
line terminator and the match is anchored at both ends, the regex matches
exactly the strings that contain a colon and no line terminator.  On success
returns `{localpart, domain}`; on failure the source throws
`Error("Invalid MXID")`, embedded as `none`. -/
def parseMxid (userId : String) : Option Mxid :=
  if userId.toList.any isLineTerminator then none
  else
    match splitAtFirstColon userId.toList with
    | some (l, r) => some ⟨⟨l⟩, ⟨r⟩⟩
    | none => none

/-! ## Room registry -/

/-- JavaScript object property assignment `o[k] = v` on an association list:
replace the value at the first occurrence of `k`, else append. -/
def objAssign {α : Type} : List (String × α) → String → α → List (String × α)
  | [], k, v => [(k, v)]
  | (k', v') :: rest, k, v =>
    if k' = k then (k', v) :: rest else (k', v') :: objAssign rest k v

/-- JavaScript property read `o[k]` on an association list. -/
def objGet {α : Type} (o : List (String × α)) (k : String) : Option α :=
  (o.find? (fun p => p.1 = k)).map (fun p => p.2)

/-- JavaScript `Object.keys(o)`: the keys in insertion order. -/
def objectKeys {α : Type} (o : List (String × α)) : List String :=
  o.map Prod.fst

/-- The `matrixRoomMembers` registry: local room id → member id list.
`startClient` initialises it to the empty object. -/
def MemberRegistry : Type := List (String × List String)

/-- The `"RoomState.members"` handler:
`this.matrixRoomMembers[state.roomId] = Object.keys(state.members)` —
a full overwrite of that room's entry with the keys of the event's state
payload. -/
def roomStateMembersHandler {α : Type} (reg : MemberRegistry) (roomId : String)
    (stateMembers : List (String × α)) : MemberRegistry :=
  objAssign reg roomId (objectKeys stateMembers)

/-- The method `Puppet.getMatrixRoomMembers(roomId)`:
`this.matrixRoomMembers[roomId] || []`.  The stored value is always an array
(truthy in JS, even when empty), so this is lookup-with-default-empty. -/
def getMatrixRoomMembers (reg : MemberRegistry) (roomId : String) : List String :=
  match objGet reg roomId with
  | some ms => ms
  | none => []

/-! ## Receipt routing -/

/-- The `thirdPartyRooms` map: local room id → third-party room id.
`saveThirdPartyRoomId` is `this.thirdPartyRooms[matrixRoomId] = thirdPartyRoomId`. -/
def ThirdPartyRooms : Type := List (String × String)

def saveThirdPartyRoomId (rooms : ThirdPartyRooms) (matrixRoomId thirdPartyRoomId : String) :
    ThirdPartyRooms :=
  objAssign rooms matrixRoomId thirdPartyRoomId

/-- Inner loop of the receipt handler:
`for (var userId in content[eventId]['m.read']) if (userId === this.id) return app.send…(binding)`.
Returns the argument of the forwarded call, if the puppeted user's id is
found among the acknowledgers. -/
def readScan (selfId : Option String) (binding : String) : List String → Option String
  | [] => none
  | u :: rest => if selfId = some u then some binding else readScan selfId binding rest

/-- Outer loop of the receipt handler over the receipt content
(`for (var eventId in content)`): each entry carries the acknowledger ids of
its `'m.read'` sub-object (iterating `undefined` with `for…in` visits
nothing, so an absent `'m.read'` key is the empty list).  The handler returns
from inside the loop at the first match, so the produced call list stops
there. -/
def receiptScan (selfId : Option String) (binding : String) :
    List (String × List String) → List String
  | [] => []
  | entry :: rest =>
    match readScan selfId binding entry.2 with
    | some call => [call]
    | none => receiptScan selfId binding rest

/-- The `"Room.receipt"` handler, returning the list of arguments of the
calls it makes to `app.sendReadReceiptAsPuppetToThirdPartyRoomWithId`:
if `this.app === null` return; if the room id is a key of
`thirdPartyRooms`, scan the content for the puppeted user's own read
acknowledgment and forward its room's binding at the first match. -/
def roomReceiptHandler (app : Option Unit) (selfId : Option String)
    (thirdPartyRooms : ThirdPartyRooms) (roomId : String)
    (content : List (String × List String)) : List String :=
  match app with
  | none => []
  | some _ =>
    match objGet thirdPartyRooms roomId with
    | none => []
    | some binding => receiptScan selfId binding content

/-! ## Sync wait -/

/-- The `'sync'` handler: `if (state === 'PREPARED') isSynced = true`. -/
def syncHandler (isSynced : Bool) (state : String) : Bool :=
  if state = "PREPARED" then true else isSynced

/-- The value of `isSynced` after the client has delivered a list of sync-state
transitions, starting from `let isSynced = false`. -/
def isSyncedAfter (events : List String) : Bool :=
  events.foldl syncHandler false

/-- Modelled from the spec: `utils.until` (the repository's `src/utils.js` is
not under `src/`) is a cooperative polling wait — "check until ready" — that
suspends the caller while the supplied predicate is true and returns control
as soon as it is false.  `startClient` awaits
`utils.until(() => !isSynced)`, so it returns after consuming the shortest
prefix of the sync-state transition trace on which `isSynced` has become
true; if no such prefix exists the wait never completes (`none`). -/
def startClientReturnIndex : List String → Option Nat
  | [] => none
  | e :: rest =>
    if syncHandler false e then some 1
    else (startClientReturnIndex rest).map (· + 1)

/-! ## Credential resolution (`associate`) -/

/-- The `puppet` section of the config: `{ id, token }`, each possibly
absent. -/
structure PuppetSection where
  id : Option String
  token : Option String
deriving Repr, DecidableEq

/-- The `bridge` section of the config: `{ homeserverUrl }`. -/
structure BridgeSection where
  homeserverUrl : Option String
deriving Repr, DecidableEq

/-- The config data consumed by `associate`: each section possibly
`undefined`. -/
structure Config where
  puppet : Option PuppetSection
  bridge : Option BridgeSection
deriving Repr, DecidableEq

/-- The `accessDat.well_known` part of a login response: the source reads
`accessDat.well_known["m.homeserver"]` from it. -/
structure WellKnown where
  mHomeserver : String
deriving Repr, DecidableEq

/-- A successful `client.login("m.login.password", …)` response:
`access_token` always present, `user_id` and `well_known` possibly
absent. -/
structure LoginResponse where
  accessToken : String
  userId : Option String
  wellKnown : Option WellKnown
deriving Repr, DecidableEq

/-- JavaScript `a || b` on a possibly-absent JS string `a`: the empty string is falsy,
so `accessDat.user_id || userId` falls back when `user_id` is absent or
empty. -/
def jsOrString (v : Option String) (d : String) : String :=
  match v with
  | some s => if s = "" then d else s
  | none => d

/-- The environment of `associate`: operator prompt answers and the
network.  `findClientConfig domain` is
`matrixSdk.AutoDiscovery.findClientConfig(domain)` reduced to its
`"m.homeserver"` outcome: `some base_url` when the state is `"SUCCESS"`,
`none` when `findHome` throws `hs.error`.  `parseURL s` is
`new URL(s)` rendered back to a string, `none` when the constructor
throws.  `login hs user password deviceName` is the password login
exchange, `none` when the server rejects it. -/
structure Env where
  readUserId : String
  readHomeserver : String
  readPassword : String
  findClientConfig : String → Option String
  parseURL : String → Option String
  login : String → String → String → Option String → Option LoginResponse

/-- Failures that propagate out of `associate`. -/
inductive AssocError where
  | discoveryFailed
  | loginFailed
deriving Repr, DecidableEq

/-- What a successful run of `associate` did: the locally resolved stage
values, the final destructured triple `{ homeserverUrl, id, token }`, the
config update it wrote to the config file or surfaced to the operator
(`none` when the triple matched the config and nothing was written), and
counters for the interactive prompts, discovery queries and login calls it
performed.  `discoveredFromId` records that the homeserver came from
auto-discovery on the domain parsed out of the identifier. -/
structure AssocResult where
  userId : String
  homeserver : String
  homeserverUrl : String
  id : String
  token : String
  update : Option Config
  prompts : Nat
  discoveries : Nat
  logins : Nat
  discoveredFromId : Bool
deriving Repr, DecidableEq

/-- Stage 1 of `associate`: use `config.puppet.id` when both are defined,
else prompt (`read({silent:false})`) and accept the raw response.  Returns
the identifier and the number of prompts issued. -/
def resolveUserId (cfg : Config) (env : Env) : String × Nat :=
  match cfg.puppet with
  | some pp =>
    match pp.id with
    | some i => (i, 0)
    | none => (env.readUserId, 1)
  | none => (env.readUserId, 1)

/-- Outcome of stage 2: the locally resolved homeserver, the prompt and
discovery-query counts, and whether the homeserver came from auto-discovery
on the domain parsed out of the identifier (`fromId`). -/
structure HsResolution where
  homeserver : String
  prompts : Nat
  discoveries : Nat
  fromId : Bool
deriving Repr, DecidableEq

/-- Stage 2 of `associate`: use `config.bridge.homeserverUrl` when defined;
otherwise parse the identifier and auto-discover its domain — a rejection of
`findHome` there is returned, not caught, because the `try` block returns
the promise without awaiting it.  When `parseMxid` throws, prompt for a URL;
if it parses as a URL use its rendering, else treat the raw input as a
domain and discover again. -/
def resolveHomeserver (cfg : Config) (env : Env) (userId : String) :
    Except AssocError HsResolution :=
  match cfg.bridge with
  | some bb =>
    match bb.homeserverUrl with
    | some h => .ok ⟨h, 0, 0, false⟩
    | none => resolveHomeserverFallback env userId
  | none => resolveHomeserverFallback env userId
where
  /-- The `else` branch of stage 2 (the async IIFE). -/
  resolveHomeserverFallback (env : Env) (userId : String) :
      Except AssocError HsResolution :=
    match parseMxid userId with
    | some m =>
      match env.findClientConfig m.domain with
      | some baseUrl => .ok ⟨baseUrl, 0, 1, true⟩
      | none => .error .discoveryFailed
    | none =>
      match env.parseURL env.readHomeserver with
      | some u => .ok ⟨u, 1, 0, false⟩
      | none =>
        match env.findClientConfig env.readHomeserver with
        | some baseUrl => .ok ⟨baseUrl, 1, 1, false⟩
        | none => .error .discoveryFailed

/-- Outcome of stage 3: the destructured triple `{ homeserverUrl, id,
token }` together with the prompt and login-call counts. -/
structure TokenResolution where
  homeserverUrl : String
  id : String
  token : String
  prompts : Nat
  logins : Nat
deriving Repr, DecidableEq

/-- Stage 3 of `associate`: when `config.puppet.token` is defined the triple
is `{ homeserverUrl: homeserver, id: userId, token: config.puppet.token }`
as-is, with no prompt and no login; otherwise prompt for a masked password
and log in, and on success prefer the server-confirmed `user_id` (JS `||`
fallback to the local identifier) and the server-advertised
`well_known["m.homeserver"]` over the locally resolved values. -/
def resolveToken (cfg : Config) (env : Env) (reg : Option String)
    (userId homeserver : String) : Except AssocError TokenResolution :=
  match cfg.puppet with
  | some pp =>
    match pp.token with
    | some t => .ok ⟨homeserver, userId, t, 0, 0⟩
    | none => loginFlow env reg userId homeserver
  | none => loginFlow env reg userId homeserver
where
  /-- The login branch (the async IIFE of stage 3). -/
  loginFlow (env : Env) (reg : Option String) (userId homeserver : String) :
      Except AssocError TokenResolution :=
    match env.login homeserver userId env.readPassword reg with
    | none => .error .loginFailed
    | some accessDat =>
      .ok
        ⟨match accessDat.wellKnown with
          | some wk => wk.mHomeserver
          | none => homeserver,
         jsOrString accessDat.userId userId,
         accessDat.accessToken, 1, 1⟩

/-- The final block of `associate`: when either section is undefined or any
of `id`, `token`, `homeserver` differs from the config, build
`{ puppet: { id, token }, bridge: { homeserverUrl: homeserver } }`,
`Object.assign` it onto the config and write it to the config file (or, with
no config path, print it for the operator).  Note the source compares and
persists `homeserver` — the locally resolved value — not the destructured
`homeserverUrl`. -/
def configUpdate (cfg : Config) (id token homeserver : String) : Option Config :=
  let changed : Bool :=
    match cfg.puppet, cfg.bridge with
    | some pp, some bb =>
      pp.id ≠ some id || pp.token ≠ some token || bb.homeserverUrl ≠ some homeserver
    | _, _ => true
  if changed then
    some ⟨some ⟨some id, some token⟩, some ⟨some homeserver⟩⟩
  else
    none

/-- The method `Puppet.associate({registration})`: the full credential-resolution flow.
`reg` is `registration.getSenderLocalpart()` when a registration was passed
(used only as the device display name hint at login). -/
def associate (cfg : Config) (env : Env) (reg : Option String) :
    Except AssocError AssocResult :=
  match resolveHomeserver cfg env (resolveUserId cfg env).1 with
  | .error e => .error e
  | .ok hs =>
    match resolveToken cfg env reg (resolveUserId cfg env).1 hs.homeserver with
    | .error e => .error e
    | .ok tk =>
      .ok
        { userId := (resolveUserId cfg env).1
          homeserver := hs.homeserver
          homeserverUrl := tk.homeserverUrl
          id := tk.id
          token := tk.token
          update := configUpdate cfg tk.id tk.token hs.homeserver
          prompts := (resolveUserId cfg env).2 + hs.prompts + tk.prompts
          discoveries := hs.discoveries
          logins := tk.logins
          discoveredFromId := hs.fromId }

/-! ## Concrete fixtures -/

/-- A concrete environment: discovery knows the domain `b.com`, the prompt
answers are fixed, and login succeeds with a server-confirmed `user_id` and
a well-known redirect to `https://hs.b.com`. -/
def envFix : Env where
  readUserId := "@p:prompt.example"
  readHomeserver := "https://prompted.example"
  readPassword := "hunter2"
  findClientConfig := fun d => if d = "b.com" then some "https://hs.b.com" else none
  parseURL := fun s => if s = "https://x" then some "https://x/" else none
  login := fun _ _ _ _ =>
    some ⟨"tok2", some "@a:b.com", some ⟨"https://hs.b.com"⟩⟩

/-- The fully-populated config of the spec's scenario:
`{puppet:{id:"@a:b.com", token:"tok"}, bridge:{homeserverUrl:"https://b.com"}}`. -/
def cfgFull : Config :=
  ⟨some ⟨some "@a:b.com", some "tok"⟩, some ⟨some "https://b.com"⟩⟩

/-- A config with an identifier and a homeserver but no token, so that
`associate` takes the interactive login path. -/
def cfgNoToken : Config :=
  ⟨some ⟨some "@a:b.com", none⟩, some ⟨some "https://b.com"⟩⟩

/-- A config whose identifier is the empty string, with a token and a
homeserver configured. -/
def cfgEmptyId : Config :=
  ⟨some ⟨some "", some "tok"⟩, some ⟨some "https://x"⟩⟩

/-- A config with identifier and token but no bridge section, so that the
homeserver is auto-discovered from the identifier's domain. -/
def cfgDiscover : Config :=
  ⟨some ⟨some "@a:b.com", some "tok"⟩, none⟩

/-- The run of `associate` on `cfgDiscover`/`envFix`: homeserver found by
discovery on `b.com`, token taken from the config, and the changed
homeserver persisted. -/
def resDiscover : AssocResult where
  userId := "@a:b.com"
  homeserver := "https://hs.b.com"
  homeserverUrl := "https://hs.b.com"
  id := "@a:b.com"
  token := "tok"
  update := some ⟨some ⟨some "@a:b.com", some "tok"⟩, some ⟨some "https://hs.b.com"⟩⟩
  prompts := 0
  discoveries := 1
  logins := 0
  discoveredFromId := true

/-! ## Helper lemmas -/

theorem splitAtFirstColon_of_not_mem (l : List Char) (h : ':' ∉ l) :
    splitAtFirstColon l = none := by
  induction l with
  | nil => rfl
  | cons c rest ih =>
    have hc : c ≠ ':' := fun hc => h (hc ▸ List.mem_cons_self c rest)
    have hr : ':' ∉ rest := fun hr => h (List.mem_cons_of_mem c hr)
    simp [splitAtFirstColon, hc, ih hr]

theorem splitAtFirstColon_of_mem (l : List Char) (h : ':' ∈ l) :
    splitAtFirstColon l =
      some (l.takeWhile (fun c => c ≠ ':'), (l.dropWhile (fun c => c ≠ ':')).tail) := by
  induction l with
  | nil => simp at h
  | cons c rest ih =>
    by_cases hc : c = ':'
    · subst hc
      simp [splitAtFirstColon, List.takeWhile, List.dropWhile]
    · have hr : ':' ∈ rest := by
        rcases List.mem_cons.mp h with h | h
        · exact absurd h.symm hc
        · exact h
      simp [splitAtFirstColon, hc, ih hr, List.takeWhile, List.dropWhile]

theorem readScan_result (selfId : Option String) (binding : String) (l : List String) :
    readScan selfId binding l = none ∨ readScan selfId binding l = some binding := by
  induction l with
  | nil => exact Or.inl rfl
  | cons u rest ih =>
    by_cases h : selfId = some u
    · right; simp [readScan, h]
    · simpa [readScan, h] using ih

theorem receiptScan_result (selfId : Option String) (binding : String)
    (content : List (String × List String)) :
    receiptScan selfId binding content = [] ∨
      receiptScan selfId binding content = [binding] := by
  induction content with
  | nil => exact Or.inl rfl
  | cons e rest ih =>
    rcases readScan_result selfId binding e.2 with h | h
    · simpa [receiptScan, h] using ih
    · right; simp [receiptScan, h]

theorem getMatrixRoomMembers_objAssign (reg : MemberRegistry) (roomId : String)
    (ms : List String) : getMatrixRoomMembers (objAssign reg roomId ms) roomId = ms := by
  induction reg with
  | nil => simp [objAssign, getMatrixRoomMembers, objGet]
  | cons p rest ih =>
    by_cases h : p.1 = roomId
    · simp [objAssign, getMatrixRoomMembers, objGet, h]
    · simpa [objAssign, getMatrixRoomMembers, objGet, h] using ih

theorem objAssign_idem {α : Type} (reg : List (String × α)) (k : String) (v : α) :
    objAssign (objAssign reg k v) k v = objAssign reg k v := by
  induction reg with
  | nil => simp [objAssign]
  | cons p rest ih =>
    by_cases h : p.1 = k
    · simp [objAssign, h]
    · simp [objAssign, h, ih]

/-! ## Claims -/

/-- Claim C4: the receipt handler makes no forwarding call when no
application is attached (`this.app === null`) or when the event's room id
has no entry in `thirdPartyRooms`. -/
theorem roomReceipt_unarmed_or_unbound_no_forward (app : Option Unit)
    (selfId : Option String) (rooms : ThirdPartyRooms) (roomId : String)
    (content : List (String × List String))
    (h : app = none ∨ objGet rooms roomId = none) :
    roomReceiptHandler app selfId rooms roomId content = [] := by
  rcases h with h | h
  · subst h; rfl
  · cases app with
    | none => rfl
    | some a => simp [roomReceiptHandler, h]

/-- Witness for C4: a bound-room payload in which the puppeted user appears
is still not forwarded while the app is unset. -/
theorem roomReceipt_unarmed_or_unbound_no_forward_witness :
    roomReceiptHandler none (some "@a:b.com") [("!r:b.com", "ext1")] "!r:b.com"
      [("$e1", ["@a:b.com"])] = [] :=
  roomReceipt_unarmed_or_unbound_no_forward none (some "@a:b.com")
    [("!r:b.com", "ext1")] "!r:b.com" [("$e1", ["@a:b.com"])] (Or.inl rfl)

/-- Claim C5: for a single receipt event the handler forwards at most one
call, and any call it makes carries the external conversation id bound to
the event's room; the scan stops at the first matching acknowledger. -/
theorem roomReceipt_at_most_one_forward (app : Option Unit)
    (selfId : Option String) (rooms : ThirdPartyRooms) (roomId : String)
    (content : List (String × List String)) :
    (roomReceiptHandler app selfId rooms roomId content).length ≤ 1 ∧
      ∀ x ∈ roomReceiptHandler app selfId rooms roomId content,
        objGet rooms roomId = some x := by
  cases app with
  | none => simp [roomReceiptHandler]
  | some a =>
    cases hb : objGet rooms roomId with
    | none => simp [roomReceiptHandler, hb]
    | some binding =>
      rcases receiptScan_result selfId binding content with h | h <;>
        simp [roomReceiptHandler, hb, h]

/-- Witness for C5: a payload in which the puppeted user acknowledges under
two event ids still produces a call whose argument is the room's binding. -/
theorem roomReceipt_at_most_one_forward_witness :
    objGet [("!r:b.com", "ext1")] "!r:b.com" = some "ext1" :=
  (roomReceipt_at_most_one_forward (some ()) (some "@a:b.com")
      [("!r:b.com", "ext1")] "!r:b.com"
      [("$e1", ["@b:b.com", "@a:b.com"]), ("$e2", ["@a:b.com"])]).2
    "ext1" (by decide)

/-- Claim C7: the membership handler overwrites the stored member list of
the event's room with exactly the keys of the event's state payload, with
no merging, so the most recent event alone determines
`getMatrixRoomMembers` for that room. -/
theorem roomStateMembers_last_write_wins {α β : Type} (reg : MemberRegistry)
    (roomId : String) (m₁ : List (String × α)) (m₂ : List (String × β)) :
    getMatrixRoomMembers (roomStateMembersHandler reg roomId m₂) roomId = objectKeys m₂ ∧
      getMatrixRoomMembers
        (roomStateMembersHandler (roomStateMembersHandler reg roomId m₁) roomId m₂)
        roomId = objectKeys m₂ :=
  ⟨getMatrixRoomMembers_objAssign _ _ _, getMatrixRoomMembers_objAssign _ _ _⟩

/-- Claim C8: applying the same membership-state event twice in succession
leaves the registry exactly as applying it once. -/
theorem roomStateMembers_idempotent {α : Type} (reg : MemberRegistry)
    (roomId : String) (m : List (String × α)) :
    roomStateMembersHandler (roomStateMembersHandler reg roomId m) roomId m =
      roomStateMembersHandler reg roomId m :=
  objAssign_idem reg roomId (objectKeys m)

/-- Claim C10: `getMatrixRoomMembers` returns the empty list, and cannot
fail, for any room with no recorded membership — in particular on the empty
registry that `startClient` has just created. -/
theorem getMatrixRoomMembers_unknown_empty (reg : MemberRegistry) (roomId : String)
    (h : objGet reg roomId = none) :
    getMatrixRoomMembers reg roomId = [] ∧
      getMatrixRoomMembers ([] : MemberRegistry) roomId = [] := by
  refine ⟨?_, rfl⟩
  simp [getMatrixRoomMembers, h]

/-- Witness for C10: an unknown room on a non-empty registry and on the
empty registry. -/
theorem getMatrixRoomMembers_unknown_empty_witness :
    getMatrixRoomMembers [("!other:room", ["@x:b.com"])] "!unknown:room" = [] ∧
      getMatrixRoomMembers ([] : MemberRegistry) "!unknown:room" = [] :=
  getMatrixRoomMembers_unknown_empty [("!other:room", ["@x:b.com"])] "!unknown:room"
    (by decide)

/-- Claim C6 counterexample: the string `"a:b\nc"` contains a colon, yet
`parseMxid` rejects it — `.` in the anchored JS regex matches no line
terminator, so the match fails and the source throws `Invalid MXID`. -/
theorem parseMxid_colon_yet_rejected :
    ':' ∈ ("a:b\nc" : String).toList ∧ parseMxid "a:b\nc" = none := by
  decide

/-- Claim C6 (amended): for strings free of line terminators, `parseMxid`
splits at the first colon — localpart before it, everything after it
(further colons included) as the domain — and fails when there is no colon;
a string containing a line terminator is always rejected, even when it
contains a colon. -/
theorem parseMxid_first_colon_split (s : String) :
    (s.toList.any isLineTerminator = true → parseMxid s = none) ∧
      (s.toList.any isLineTerminator = false →
        (':' ∉ s.toList → parseMxid s = none) ∧
          (':' ∈ s.toList → parseMxid s =
            some ⟨⟨s.toList.takeWhile (fun c => c ≠ ':')⟩,
              ⟨(s.toList.dropWhile (fun c => c ≠ ':')).tail⟩⟩)) := by
  refine ⟨fun h => ?_, fun h => ⟨fun hn => ?_, fun hm => ?_⟩⟩
  · unfold parseMxid
    rw [h]
    rfl
  · unfold parseMxid
    rw [h, splitAtFirstColon_of_not_mem _ hn]
    rfl
  · unfold parseMxid
    rw [h, splitAtFirstColon_of_mem _ hm]
    rfl

/-- Witness for the amended C6 at `"@a:b.com"`. -/
theorem parseMxid_first_colon_split_witness :
    parseMxid "@a:b.com" =
      some ⟨⟨(("@a:b.com" : String).toList.takeWhile (fun c => c ≠ ':'))⟩,
        ⟨((("@a:b.com" : String).toList.dropWhile (fun c => c ≠ ':')).tail)⟩⟩ :=
  ((parseMxid_first_colon_split "@a:b.com").2 (by decide)).2 (by decide)

/-- Claim C3: `startClient` returns only after a sync-state transition to
`'PREPARED'` — the wait completes at index `n` only when the consumed
prefix of the transition trace contains `'PREPARED'`, and never completes
on a trace that contains none. -/
theorem startClient_waits_for_prepared (events : List String) :
    (∀ n, startClientReturnIndex events = some n → "PREPARED" ∈ events.take n) ∧
      ("PREPARED" ∉ events → startClientReturnIndex events = none) := by
  induction events with
  | nil =>
    refine ⟨fun n h => ?_, fun _ => rfl⟩
    simp [startClientReturnIndex] at h
  | cons e rest ih =>
    refine ⟨fun n h => ?_, fun hnp => ?_⟩
    · by_cases hp : e = "PREPARED"
      · subst hp
        simp [startClientReturnIndex, syncHandler] at h
        subst h
        simp
      · simp [startClientReturnIndex, syncHandler, hp] at h
        obtain ⟨m, hm, rfl⟩ := h
        have hmem := ih.1 m hm
        simp [List.mem_cons]
        exact Or.inr hmem
    · have he : e ≠ "PREPARED" := fun hh => hnp (by simp [hh])
      have hr : "PREPARED" ∉ rest := fun hh => hnp (List.mem_cons_of_mem _ hh)
      simp [startClientReturnIndex, syncHandler, he, ih.2 hr]

/-- Witness for C3: on the trace `["SYNCING", "PREPARED"]` the wait
completes after two transitions and the consumed prefix contains
`'PREPARED'`. -/
theorem startClient_waits_for_prepared_witness :
    "PREPARED" ∈ (["SYNCING", "PREPARED"] : List String).take 2 :=
  (startClient_waits_for_prepared ["SYNCING", "PREPARED"]).1 2 rfl

/-- Claim C2: with `puppet.id`, `puppet.token` and `bridge.homeserverUrl`
all present, `associate` resolves exactly those three values, performs no
interactive prompt, no discovery query and no login call, and writes no
config update. -/
theorem associate_full_config_short_circuits (cfg : Config) (env : Env)
    (reg : Option String) (pp : PuppetSection) (bb : BridgeSection)
    (i t h : String) (hp : cfg.puppet = some pp) (hi : pp.id = some i)
    (ht : pp.token = some t) (hb : cfg.bridge = some bb)
    (hh : bb.homeserverUrl = some h) :
    associate cfg env reg = Except.ok ⟨i, h, h, i, t, none, 0, 0, 0, false⟩ := by
  simp [associate, resolveUserId, resolveHomeserver, resolveToken, configUpdate,
    hp, hi, ht, hb, hh]

/-- Witness for C2: the spec's scenario config resolves to
`("https://b.com", "@a:b.com", "tok")` with zero prompts, discoveries,
logins, and no config update. -/
theorem associate_full_config_short_circuits_witness :
    associate cfgFull envFix none =
      Except.ok ⟨"@a:b.com", "https://b.com", "https://b.com", "@a:b.com", "tok",
        none, 0, 0, 0, false⟩ :=
  associate_full_config_short_circuits cfgFull envFix none _ _ "@a:b.com" "tok"
    "https://b.com" rfl rfl rfl rfl rfl

/-- Claim C1 (code bug): on a config with an identifier and homeserver but
no token, and a login response carrying a well-known redirect to
`https://hs.b.com`, the resolved triple's `homeserverUrl` is the
server-advertised value, yet the update written to the config persists the
locally resolved `https://b.com` — the source compares and persists the
local `homeserver` variable and never uses the destructured
`homeserverUrl`. -/
theorem associate_drops_well_known_on_persist :
    ∃ r, associate cfgNoToken envFix none = Except.ok r ∧
      r.homeserverUrl = "https://hs.b.com" ∧
      r.update =
        some ⟨some ⟨some "@a:b.com", some "tok2"⟩, some ⟨some "https://b.com"⟩⟩ :=
  ⟨_, rfl, rfl, rfl⟩

/-- Claim C9 counterexample: `associate` completes successfully on a config
whose identifier is the empty string — the resolved user identifier is
empty and does not match `localpart:domain`, and no resolution path
rejected it. -/
theorem associate_succeeds_with_invalid_id :
    ∃ r, associate cfgEmptyId envFix none = Except.ok r ∧
      r.id = "" ∧ parseMxid r.id = none :=
  ⟨_, rfl, rfl, rfl⟩

theorem resolveHomeserverFallback_fromId (env : Env) (userId : String)
    (hs : HsResolution)
    (hok : resolveHomeserver.resolveHomeserverFallback env userId = Except.ok hs)
    (hf : hs.fromId = true) : (parseMxid userId).isSome = true := by
  unfold resolveHomeserver.resolveHomeserverFallback at hok
  split at hok
  · rename_i m hm
    rw [hm]
    rfl
  · split at hok
    · injection hok with h
      rw [← h] at hf
      simp at hf
    · split at hok
      · injection hok with h
        rw [← h] at hf
        simp at hf
      · exact Except.noConfusion hok

theorem resolveHomeserver_fromId (cfg : Config) (env : Env) (userId : String)
    (hs : HsResolution) (hok : resolveHomeserver cfg env userId = Except.ok hs)
    (hf : hs.fromId = true) : (parseMxid userId).isSome = true := by
  unfold resolveHomeserver at hok
  split at hok
  · split at hok
    · injection hok with hrec
      rw [← hrec] at hf
      simp at hf
    · exact resolveHomeserverFallback_fromId env userId hs hok hf
  · exact resolveHomeserverFallback_fromId env userId hs hok hf

/-- Claim C9 (amended): `associate` performs no validation of the resolved
triple — it can succeed with an empty user identifier or one that does not
match `localpart:domain`, each component being accepted as-is from config,
prompt, or server; the user identifier is guaranteed to parse as
`localpart:domain` on the runs whose homeserver was auto-discovered from
the identifier itself. -/
theorem associate_discovered_id_parses (cfg : Config) (env : Env)
    (reg : Option String) (r : AssocResult)
    (hok : associate cfg env reg = Except.ok r)
    (hd : r.discoveredFromId = true) : (parseMxid r.userId).isSome = true := by
  unfold associate at hok
  split at hok
  · exact Except.noConfusion hok
  · rename_i hs hhs
    split at hok
    · exact Except.noConfusion hok
    · rename_i tk htk
      injection hok with h
      subst h
      exact resolveHomeserver_fromId cfg env _ hs hhs hd

/-- Witness for the amended C9: on `cfgDiscover`/`envFix` the homeserver is
auto-discovered from the identifier and the resolved identifier parses. -/
theorem associate_discovered_id_parses_witness :
    (parseMxid resDiscover.userId).isSome = true :=
  associate_discovered_id_parses cfgDiscover envFix none resDiscover rfl rfl

end Puppet
